import Mathlib

/-
Shallow embedding of the bike-share warehouse SQL templates in
src/sql_queries.py.  Tables are lists of typed rows; nullable SQL columns
become Option-typed fields; the DDL text is embedded structurally as lists
of statements carrying column specifications; the DML queries are embedded
as executable functions on a warehouse state.
-/

namespace SqlQueries

/-- A SQL timestamp value, modelled by its calendar components
(proleptic Gregorian). -/
structure Timestamp where
  year : Nat
  month : Nat
  day : Nat
  hour : Nat
  minute : Nat
  second : Nat
deriving DecidableEq, Repr

/-- Gregorian leap-year rule. -/
def isLeapYear (y : Nat) : Bool :=
  (y % 4 == 0 && y % 100 != 0) || (y % 400 == 0)

/-- Days in the months of year `y`, January first. -/
def monthLengths (y : Nat) : List Nat :=
  [31, if isLeapYear y then 29 else 28, 31, 30, 31, 30, 31, 31, 30, 31, 30, 31]

/-- Days of year `y` strictly before month `m` (1-based). -/
def daysBeforeMonth (y m : Nat) : Nat :=
  ((monthLengths y).take (m - 1)).sum

/-- Rata-die day number: day 1 is 0001-01-01 in the proleptic Gregorian
calendar. -/
def rataDie (y m d : Nat) : Nat :=
  365 * (y - 1) + (y - 1) / 4 - (y - 1) / 100 + (y - 1) / 400
    + daysBeforeMonth y m + d

/-- Day of week with the warehouse convention 0 = Sunday, ..., 6 = Saturday
(the convention of `extract(dow from ...)`). -/
def dayOfWeek (y m d : Nat) : Nat :=
  rataDie y m d % 7

/-- `extract(year from t)`. -/
def extractYear (t : Timestamp) : Nat := t.year

/-- `extract(month from t)`. -/
def extractMonth (t : Timestamp) : Nat := t.month

/-- `extract(day from t)`. -/
def extractDay (t : Timestamp) : Nat := t.day

/-- `extract(dow from t)`. -/
def extractDow (t : Timestamp) : Nat := dayOfWeek t.year t.month t.day

/-- `extract(hour from t)`. -/
def extractHour (t : Timestamp) : Nat := t.hour

/-- `cast(t as date)`: the calendar date part of a timestamp. -/
def castDate (t : Timestamp) : Nat × Nat × Nat := (t.year, t.month, t.day)

/-- A row of the `trips` table.  `trip_id` is declared `not null`; every
other column is nullable, hence Option-typed. -/
structure TripsRow where
  trip_id : Int
  start_date : Option Timestamp
  end_date : Option Timestamp
  duration_sec : Option Int
  is_member : Option Bool
  start_station_id : Option Int
  end_station_id : Option Int
deriving DecidableEq, Repr

/-- A row of the `stations` table.  `station_id` is declared `not null`. -/
structure StationsRow where
  station_id : Int
  name : Option String
  lat : Option ℚ
  lon : Option ℚ
deriving DecidableEq, Repr

/-- A row of the `gbfs` table.  `station_id` is the declared primary key;
all other columns are nullable. -/
structure GbfsRow where
  station_id : Int
  is_charging : Option Bool
  is_installed : Option Bool
  is_renting : Option Bool
  is_returning : Option Bool
  last_reported : Option Int
  num_bikes_available : Option Int
  num_bikes_disabled : Option Int
  num_docks_available : Option Int
  num_docks_disabled : Option Int
  num_ebikes_available : Option Int
  last_updated_dt : Option Timestamp
deriving DecidableEq, Repr

/-- A row of the `time` table as produced by the rebuild query's select
list: each derived column is the null-propagating `extract` of the
(possibly null) source timestamp. -/
structure TimeRow where
  datetime : Option Timestamp
  year : Option Nat
  month : Option Nat
  day : Option Nat
  day_of_week : Option Nat
  hour : Option Nat
deriving DecidableEq, Repr

/-- The warehouse state: contents of the four tables. -/
structure Warehouse where
  trips : List TripsRow
  stations : List StationsRow
  gbfs : List GbfsRow
  time : List TimeRow
deriving DecidableEq, Repr

/-- The inner `union all` of `copy_time_query`:
`select start_date from trips union all select end_date from trips
union all select last_updated_dt from gbfs`. -/
def sourceTimestamps (trips : List TripsRow) (gbfs : List GbfsRow) :
    List (Option Timestamp) :=
  trips.map TripsRow.start_date ++ trips.map TripsRow.end_date
    ++ gbfs.map GbfsRow.last_updated_dt

/-- The select list of `copy_time_query` applied to one distinct `dt`:
`dt, extract(year ...), extract(month ...), extract(day ...),
extract(dow ...), extract(hour ...)`, with SQL null propagation. -/
def mkTimeRow (dt : Option Timestamp) : TimeRow :=
  { datetime := dt
  , year := dt.map extractYear
  , month := dt.map extractMonth
  , day := dt.map extractDay
  , day_of_week := dt.map extractDow
  , hour := dt.map extractHour }

/-- The rows computed by the `insert into time select ...` of
`copy_time_query`: the distinct timestamps of the union, decomposed. -/
def timeRows (trips : List TripsRow) (gbfs : List GbfsRow) : List TimeRow :=
  (sourceTimestamps trips gbfs).dedup.map mkTimeRow

/-- Semantics of `copy_time_query` as a state transformer:
`truncate table time` followed by `insert into time select ...`. -/
def runCopyTimeQuery (w : Warehouse) : Warehouse :=
  let truncated : Warehouse := { w with time := [] }
  { truncated with time := truncated.time ++ timeRows truncated.trips truncated.gbfs }

/-- A column declaration of a `create table` statement: name, SQL type
text, and the constraints written on the column. -/
structure ColumnSpec where
  colName : String
  sqlType : String
  notNull : Bool
  uniq : Bool
  primaryKey : Bool
deriving DecidableEq, Repr

/-- A DDL/DML statement of the templates, kept structurally.  The select
body of the `insert into time` statement is embedded semantically by
`timeRows`. -/
inductive Stmt where
  | dropIfExists (table : String)
  | createIfNotExists (table : String) (cols : List ColumnSpec)
  | truncateTable (table : String)
  | insertInto (table : String)
deriving DecidableEq, Repr

/-- Columns of the `trips` table as declared in the source. -/
def tripsCols : List ColumnSpec :=
  [ ⟨"trip_id", "int8", true, true, false⟩
  , ⟨"start_date", "timestamp", false, false, false⟩
  , ⟨"end_date", "timestamp", false, false, false⟩
  , ⟨"duration_sec", "int", false, false, false⟩
  , ⟨"is_member", "bool", false, false, false⟩
  , ⟨"start_station_id", "int8", false, false, false⟩
  , ⟨"end_station_id", "int8", false, false, false⟩ ]

/-- Columns of the `gbfs` table as declared in the source. -/
def gbfsCols : List ColumnSpec :=
  [ ⟨"station_id", "int8", false, false, true⟩
  , ⟨"is_charging", "bool", false, false, false⟩
  , ⟨"is_installed", "bool", false, false, false⟩
  , ⟨"is_renting", "bool", false, false, false⟩
  , ⟨"is_returning", "bool", false, false, false⟩
  , ⟨"last_reported", "int8", false, false, false⟩
  , ⟨"num_bikes_available", "int8", false, false, false⟩
  , ⟨"num_bikes_disabled", "int8", false, false, false⟩
  , ⟨"num_docks_available", "int8", false, false, false⟩
  , ⟨"num_docks_disabled", "int8", false, false, false⟩
  , ⟨"num_ebikes_available", "int8", false, false, false⟩
  , ⟨"last_updated_dt", "timestamp", false, false, false⟩ ]

/-- Columns of the `stations` table as declared in the source. -/
def stationsCols : List ColumnSpec :=
  [ ⟨"station_id", "int", true, false, false⟩
  , ⟨"name", "varchar", false, false, false⟩
  , ⟨"lat", "decimal(9,6)", false, false, false⟩
  , ⟨"lon", "decimal(9,6)", false, false, false⟩ ]

/-- Columns of the `time` table as declared in the source. -/
def timeCols : List ColumnSpec :=
  [ ⟨"datetime", "timestamp", true, true, false⟩
  , ⟨"year", "int", false, false, false⟩
  , ⟨"month", "int", false, false, false⟩
  , ⟨"day", "int", false, false, false⟩
  , ⟨"day_of_week", "int", false, false, false⟩
  , ⟨"hour", "int", false, false, false⟩ ]

/-- `create_trips_table_query`: drop then create of `trips`. -/
def create_trips_table_query : List Stmt :=
  [Stmt.dropIfExists "trips", Stmt.createIfNotExists "trips" tripsCols]

/-- `create_gbfs_table_query`: drop then create of `gbfs`. -/
def create_gbfs_table_query : List Stmt :=
  [Stmt.dropIfExists "gbfs", Stmt.createIfNotExists "gbfs" gbfsCols]

/-- `create_stations_table_query`: drop then create of `stations`. -/
def create_stations_table_query : List Stmt :=
  [Stmt.dropIfExists "stations", Stmt.createIfNotExists "stations" stationsCols]

/-- `create_time_table_query`: drop then create of `time`. -/
def create_time_table_query : List Stmt :=
  [Stmt.dropIfExists "time", Stmt.createIfNotExists "time" timeCols]

/-- `copy_time_query` as statements: truncate then insert-select into
`time` (the select body is `timeRows`). -/
def copy_time_query : List Stmt :=
  [Stmt.truncateTable "time", Stmt.insertInto "time"]

/-- `create_queries`: the fixed statement batches the Schema Manager runs,
in source order. -/
def create_queries : List (List Stmt) :=
  [ create_trips_table_query
  , create_stations_table_query
  , create_gbfs_table_query
  , create_time_table_query ]

/-- The table a statement addresses. -/
def Stmt.table : Stmt → String
  | Stmt.dropIfExists t => t
  | Stmt.createIfNotExists t _ => t
  | Stmt.truncateTable t => t
  | Stmt.insertInto t => t

/-- Whether a statement is a drop. -/
def Stmt.isDrop : Stmt → Bool
  | Stmt.dropIfExists _ => true
  | _ => false

/-- Whether a statement batch is exactly a drop-if-exists followed by a
create-if-not-exists of the same table. -/
def dropThenCreate : List Stmt → Bool
  | [Stmt.dropIfExists t, Stmt.createIfNotExists u _] => t == u
  | _ => false

/-- Whether an insert whose null cells are the columns selected by
`nullCols` satisfies the declared `not null` constraints. -/
def insertAccepted (cols : List ColumnSpec) (nullCols : String → Bool) : Bool :=
  cols.all (fun c => !(c.notNull && nullCols c.colName))

/-- `check_row_count`: `select count(*) from {table}`. -/
def check_row_count {α : Type} (table : List α) : Nat :=
  table.length

/-- `check_primary_key_constraint`: `select count(*) from (select {key},
count(*) from {table} group by 1 having count(*) > 2)` — the number of key
groups whose size exceeds 2, with the threshold exactly as written in the
source. -/
def check_primary_key_constraint {α β : Type} [DecidableEq α] [DecidableEq β]
    (key : α → β) (table : List α) : Nat :=
  ((table.map key).dedup.filter
    (fun k => decide (2 < table.countP (fun r => decide (key r = k))))).length

/-- A single-quote character, as used to quote literals in the copy
statement. -/
def sq : String := String.mk [Char.ofNat 39]

/-- A string wrapped in single quotes. -/
def quoted (s : String) : String := sq ++ s ++ sq

/-- `copy_table_query` instantiated by Python `.format` with its five
inputs: the produced statement text. -/
def copy_table_query (table path accessKeyId secretAccessKey fmt : String) :
    String :=
  "\n    copy " ++ table
    ++ "\n    from " ++ quoted path
    ++ "\n    access_key_id " ++ quoted accessKeyId
    ++ "\n    secret_access_key " ++ quoted secretAccessKey
    ++ "\n    format as " ++ fmt ++ "\n"

/-- The date hard-coded in `sample_query`. -/
def targetDate : Nat × Nat × Nat := (2021, 4, 20)

/-- `cast(c as date) = '2021-04-20'` on a nullable timestamp column: false
on null (a null comparison is not true). -/
def onTargetDate (dt : Option Timestamp) : Bool :=
  match dt with
  | none => false
  | some t => decide (castDate t = targetDate)

/-- The subquery of `sample_query`: `select start_station_id, count(*) as
daily_trip_count from trips where cast(start_date as date) = '2021-04-20'
group by 1`. -/
def dailyTripCounts (trips : List TripsRow) : List (Option Int × Nat) :=
  let filtered := trips.filter (fun r => onTargetDate r.start_date)
  (filtered.map TripsRow.start_station_id).dedup.map
    (fun k => (k, filtered.countP (fun r => decide (r.start_station_id = k))))

/-- A row of the join of `sample_query` before grouping. -/
structure JoinedRow where
  station_id : Int
  name : Option String
  num_bikes_available : Option Int
  daily_trip_count : Nat
deriving DecidableEq, Repr

/-- The joined relation of `sample_query`: `gbfs` rows passing the date
filter, inner-joined to `stations` on station id and to the trips
subquery on start station id. -/
def sampleJoin (w : Warehouse) : List JoinedRow :=
  (w.gbfs.filter (fun g => onTargetDate g.last_updated_dt)).flatMap (fun g =>
    (w.stations.filter (fun s => decide (s.station_id = g.station_id))).flatMap (fun s =>
      ((dailyTripCounts w.trips).filter (fun kc => decide (kc.1 = some g.station_id))).map
        (fun kc => ⟨g.station_id, s.name, g.num_bikes_available, kc.2⟩)))

/-- SQL `avg` of a nullable integer column: skip nulls, rational mean,
null on an empty group. -/
def avgInt (xs : List (Option Int)) : Option ℚ :=
  let vs := xs.filterMap id
  if vs.isEmpty then none else some ((vs.map (fun v => (v : ℚ))).sum / vs.length)

/-- A result row of `sample_query`. -/
structure SampleRow where
  station_id : Int
  name : Option String
  avg_num_bikes_available : Option ℚ
  sum_daily_trip_count : Nat
deriving DecidableEq, Repr

/-- `sample_query`: group the joined relation by station id and name,
aggregate, `limit 5`. -/
def sample_query (w : Warehouse) : List SampleRow :=
  let j := sampleJoin w
  ((j.map (fun r => (r.station_id, r.name))).dedup.map (fun k =>
    let grp := j.filter (fun r => decide ((r.station_id, r.name) = k))
    ⟨k.1, k.2, avgInt (grp.map JoinedRow.num_bikes_available),
      (grp.map JoinedRow.daily_trip_count).sum⟩)).take 5

/-- A trips row with only the fields the queries consume populated. -/
def mkTrip (id : Int) (sd ed : Option Timestamp) (sst : Option Int) : TripsRow :=
  ⟨id, sd, ed, none, none, sst, none⟩

/-- A gbfs row with only the fields the queries consume populated. -/
def mkGbfs (sid : Int) (bikes : Option Int) (dt : Option Timestamp) : GbfsRow :=
  ⟨sid, none, none, none, none, none, bikes, none, none, none, none, dt⟩

/-- A stations row with only the fields the queries consume populated. -/
def mkStation (sid : Int) (nm : Option String) : StationsRow :=
  ⟨sid, nm, none, none⟩

/-- A timestamp at a given hour, minutes and seconds zero. -/
def mkTs (y mo d h : Nat) : Timestamp :=
  ⟨y, mo, d, h, 0, 0⟩

/-- Fixture for the sample query: one station (id 7), 3 trips starting on
2021-04-20 from it, and 2 gbfs snapshot rows for it on that date whose
bike counts 5 and 6 average to 5.5. -/
def sampleFixture : Warehouse :=
  { trips :=
      [ mkTrip 1 (some (mkTs 2021 4 20 8)) none (some 7)
      , mkTrip 2 (some (mkTs 2021 4 20 9)) none (some 7)
      , mkTrip 3 (some (mkTs 2021 4 20 10)) none (some 7) ]
  , stations := [mkStation 7 (some "X")]
  , gbfs :=
      [ mkGbfs 7 (some 5) (some (mkTs 2021 4 20 11))
      , mkGbfs 7 (some 6) (some (mkTs 2021 4 20 12)) ]
  , time := [] }

/-- Fixture for the null-timestamp edge case: one trip whose start date is
null. -/
def nullTripFixture : List TripsRow :=
  [mkTrip 1 none (some (mkTs 2021 4 20 8)) (some 7)]

/-- Warehouse state built on the null-timestamp fixture. -/
def nullFixtureW : Warehouse :=
  { trips := nullTripFixture, stations := [], gbfs := [], time := [] }

/-- gbfs contents with no duplicate station identifiers. -/
def gbfsNoDup : List GbfsRow :=
  [mkGbfs 7 (some 5) none, mkGbfs 8 (some 6) none]

/-- gbfs contents with exactly two rows sharing station id 7. -/
def gbfsDup7 : List GbfsRow :=
  [mkGbfs 7 (some 5) none, mkGbfs 7 (some 6) none]

/-- Fixture for the time rebuild: one trip and one gbfs snapshot sharing
the timestamp 2021-04-20 08:00:00 and one further end timestamp. -/
def timeFixture : Warehouse :=
  { trips := [mkTrip 1 (some (mkTs 2021 4 20 8)) (some (mkTs 2021 4 20 9)) (some 7)]
  , stations := []
  , gbfs := [mkGbfs 7 (some 5) (some (mkTs 2021 4 20 8))]
  , time := [] }

/-- In a duplicate-free list every element is counted exactly once. -/
theorem countP_eq_one_of_nodup_of_mem {α : Type} [DecidableEq α] {l : List α}
    {a : α} (hnd : l.Nodup) (ha : a ∈ l) :
    l.countP (fun x => decide (x = a)) = 1 := by
  induction l with
  | nil => cases ha
  | cons b l ih =>
    obtain ⟨hbl, hnd'⟩ := List.nodup_cons.mp hnd
    rw [List.countP_cons]
    rcases List.mem_cons.mp ha with h | h
    · subst h
      have h0 : l.countP (fun x => decide (x = a)) = 0 := by
        apply List.countP_eq_zero.mpr
        intro x hx
        simp only [decide_eq_true_eq]
        rintro rfl
        exact hbl hx
      simp [h0]
    · have hba : ¬(b = a) := by
        rintro rfl
        exact hbl h
      have h1 := ih hnd' h
      simp [h1, hba]

/-- A true date filter on a nullable timestamp yields the timestamp and
the date equation. -/
theorem onTargetDate_eq_true {dt : Option Timestamp}
    (h : onTargetDate dt = true) :
    ∃ u, dt = some u ∧ castDate u = targetDate := by
  cases dt with
  | none => simp [onTargetDate] at h
  | some u =>
      refine ⟨u, rfl, ?_⟩
      simpa [onTargetDate] using h

/-- Every group of the trips subquery stems from a trip row passing the
date filter whose start station is the group key. -/
theorem mem_dailyTripCounts {trips : List TripsRow} {kc : Option Int × Nat}
    (h : kc ∈ dailyTripCounts trips) :
    ∃ tr ∈ trips, onTargetDate tr.start_date = true ∧
      tr.start_station_id = kc.1 := by
  simp only [dailyTripCounts, List.mem_map, List.mem_dedup] at h
  obtain ⟨k, hk, rfl⟩ := h
  obtain ⟨tr, htr, rfl⟩ := hk
  obtain ⟨htr1, htr2⟩ := List.mem_filter.mp htr
  exact ⟨tr, htr1, htr2, rfl⟩

/-- Every joined row of the sample query stems from a gbfs row on the
target date, a matching stations row, and a matching trips subquery
group. -/
theorem mem_sampleJoin {w : Warehouse} {jr : JoinedRow}
    (hj : jr ∈ sampleJoin w) :
    ∃ g ∈ w.gbfs, onTargetDate g.last_updated_dt = true ∧
      g.station_id = jr.station_id ∧
      (∃ st ∈ w.stations, st.station_id = g.station_id) ∧
      ∃ kc ∈ dailyTripCounts w.trips, kc.1 = some g.station_id := by
  simp only [sampleJoin, List.mem_flatMap, List.mem_filter, List.mem_map,
    decide_eq_true_eq] at hj
  obtain ⟨g, ⟨hg, hgdate⟩, s, ⟨hs, hss⟩, kc, ⟨hkc, hkk⟩, rfl⟩ := hj
  exact ⟨g, hg, hgdate, rfl, ⟨s, hs, hss⟩, kc, hkc, hkk⟩

/-- C1: after the Time-Dimension Builder runs, each timestamp occurring in
trips.start_date, trips.end_date or gbfs.last_updated_dt heads exactly one
row of the time table, and that row's derived columns are the calendar
decomposition of the timestamp (day of week with 0 = Sunday). -/
theorem copy_time_query_distinct_decomposition (w : Warehouse) (t : Timestamp)
    (h : some t ∈ sourceTimestamps w.trips w.gbfs) :
    ((runCopyTimeQuery w).time.countP (fun r => decide (r.datetime = some t)) = 1) ∧
    ∀ r ∈ (runCopyTimeQuery w).time, r.datetime = some t →
      r.year = some (extractYear t) ∧ r.month = some (extractMonth t) ∧
      r.day = some (extractDay t) ∧ r.day_of_week = some (extractDow t) ∧
      r.hour = some (extractHour t) := by
  have htime : (runCopyTimeQuery w).time = timeRows w.trips w.gbfs := by
    simp [runCopyTimeQuery]
  constructor
  · rw [htime]
    unfold timeRows
    rw [List.countP_map]
    have hcomp : ((fun r : TimeRow => decide (r.datetime = some t)) ∘ mkTimeRow)
        = fun dt : Option Timestamp => decide (dt = some t) := by
      funext dt
      simp [mkTimeRow]
    rw [hcomp]
    exact countP_eq_one_of_nodup_of_mem (List.nodup_dedup _) (List.mem_dedup.mpr h)
  · rw [htime]
    intro r hr heq
    unfold timeRows at hr
    obtain ⟨dt, _, rfl⟩ := List.mem_map.mp hr
    have hdt : dt = some t := heq
    subst hdt
    simp [mkTimeRow, extractYear, extractMonth, extractDay, extractDow, extractHour]

/-- C1 witness: the fixture timestamp 2021-04-20 08:00 occurs in the
sources and the rebuilt time table decomposes it once. -/
theorem copy_time_query_distinct_decomposition_witness :
    (some (mkTs 2021 4 20 8) ∈ sourceTimestamps timeFixture.trips timeFixture.gbfs) ∧
    (((runCopyTimeQuery timeFixture).time.countP
        (fun r => decide (r.datetime = some (mkTs 2021 4 20 8))) = 1) ∧
      ∀ r ∈ (runCopyTimeQuery timeFixture).time,
        r.datetime = some (mkTs 2021 4 20 8) →
        r.year = some (extractYear (mkTs 2021 4 20 8)) ∧
        r.month = some (extractMonth (mkTs 2021 4 20 8)) ∧
        r.day = some (extractDay (mkTs 2021 4 20 8)) ∧
        r.day_of_week = some (extractDow (mkTs 2021 4 20 8)) ∧
        r.hour = some (extractHour (mkTs 2021 4 20 8))) :=
  ⟨by decide,
    copy_time_query_distinct_decomposition timeFixture (mkTs 2021 4 20 8) (by decide)⟩

/-- C2: the rebuild query does not filter null timestamps: on a trips
table whose only row has a null start date, the rebuilt time table
contains a row with null datetime. -/
theorem copy_time_query_null_retained :
    ((runCopyTimeQuery nullFixtureW).time.countP
      (fun r => decide (r.datetime = none))) = 1 := by
  decide

/-- C3: with the threshold written in the source (`having count > 2`) the
detector returns 0 on duplicate-free gbfs contents, but it also returns 0
— not a positive count — on gbfs contents with exactly two rows sharing
station id 7. -/
theorem check_primary_key_threshold_defect :
    check_primary_key_constraint GbfsRow.station_id gbfsNoDup = 0 ∧
    check_primary_key_constraint GbfsRow.station_id gbfsDup7 = 0 := by
  decide

/-- C4: rebuilding the time table twice with unchanged trips and gbfs
contents produces the same time table as rebuilding it once. -/
theorem runCopyTimeQuery_idempotent (w : Warehouse) :
    (runCopyTimeQuery (runCopyTimeQuery w)).time = (runCopyTimeQuery w).time := by
  simp [runCopyTimeQuery]

/-- C5 counterexample: the time table is dropped on every run after all —
the Schema Manager batch for `time` begins with a drop-if-exists of
`time`. -/
theorem time_table_dropped_each_run :
    Stmt.dropIfExists "time" ∈ create_time_table_query ∧
    create_time_table_query ∈ create_queries := by
  decide

/-- C5 amended: the rebuild query itself only truncates and reinserts the
time table, never dropping it, but the Schema Manager drops and recreates
`time` on every run just as it does `trips`, `stations` and `gbfs`. -/
theorem copy_time_query_truncates_never_drops :
    copy_time_query = [Stmt.truncateTable "time", Stmt.insertInto "time"] ∧
    copy_time_query.all (fun s => !s.isDrop) = true ∧
    Stmt.dropIfExists "time" ∈ create_queries.flatten := by
  decide

/-- C6 counterexample: on the fixture with 3 trips and 2 same-day gbfs
snapshots for station 7, the sample query's trip sum is 6, not 3: each
gbfs snapshot row duplicates the single subquery group in the join. -/
theorem sample_query_sum_not_three :
    (sample_query sampleFixture).map SampleRow.sum_daily_trip_count ≠ [3] ∧
    (sample_query sampleFixture).map SampleRow.sum_daily_trip_count = [6] := by
  decide

/-- C6 amended: on the fixture the sample query returns exactly one row,
with average available bikes 5.5 and trip sum 6 (the per-day count 3
counted once per joined gbfs snapshot row). -/
theorem sample_query_fixture_result :
    sample_query sampleFixture = [⟨7, some "X", some ((11 : ℚ) / 2), 6⟩] := by
  have h1 : sample_query sampleFixture
      = [⟨7, some "X", avgInt [some 5, some 6], 6⟩] := by rfl
  have h2 : avgInt [some 5, some 6] = some ((11 : ℚ) / 2) := by
    simp [avgInt, List.filterMap_cons]
    norm_num
  rw [h1, h2]

/-- C7: the Schema Manager's batches address, in order, trips, stations,
gbfs, time, and every batch is exactly a drop-if-exists followed by a
create-if-not-exists of the same table; the batches are the fixed
constants below, taking no runtime inputs. -/
theorem create_queries_shape :
    create_queries.map (fun q => q.map Stmt.table)
      = [["trips", "trips"], ["stations", "stations"],
         ["gbfs", "gbfs"], ["time", "time"]] ∧
    create_queries.all dropThenCreate = true ∧
    create_queries
      = [ create_trips_table_query, create_stations_table_query
        , create_gbfs_table_query, create_time_table_query ] := by
  decide

/-- C8 counterexample: a stations insert whose station_id cell is null is
rejected, because the final DDL declares `station_id int not null`. -/
theorem stations_null_station_id_rejected :
    ¬ insertAccepted stationsCols (fun c => c == "station_id") = true := by
  decide

/-- C8 amended: the stations station_id column carries a not-null
constraint in the final schema, so inserting a row with a null station_id
is rejected. -/
theorem stations_station_id_not_null :
    (stationsCols.find? (fun c => c.colName == "station_id")).map
        ColumnSpec.notNull = some true ∧
    insertAccepted stationsCols (fun c => c == "station_id") = false := by
  decide

/-- C9: a station id appears in the sample query result only if the state
simultaneously has a trips row starting at that station on 2021-04-20, a
stations row with that id, and a gbfs row for that id updated on
2021-04-20. -/
theorem sample_query_requires_all_three (w : Warehouse) (sid : Int)
    (h : sid ∈ (sample_query w).map SampleRow.station_id) :
    (∃ tr ∈ w.trips, tr.start_station_id = some sid ∧
      ∃ u, tr.start_date = some u ∧ castDate u = targetDate) ∧
    (∃ st ∈ w.stations, st.station_id = sid) ∧
    (∃ g ∈ w.gbfs, g.station_id = sid ∧
      ∃ u, g.last_updated_dt = some u ∧ castDate u = targetDate) := by
  obtain ⟨row, hrow, hsid⟩ := List.mem_map.mp h
  have hrow2 := List.take_subset 5
    (((sampleJoin w).map (fun r => (r.station_id, r.name))).dedup.map
      (fun k =>
        let grp := (sampleJoin w).filter
          (fun r => decide ((r.station_id, r.name) = k))
        (⟨k.1, k.2, avgInt (grp.map JoinedRow.num_bikes_available),
          (grp.map JoinedRow.daily_trip_count).sum⟩ : SampleRow)))
    hrow
  obtain ⟨k, hk, hkrow⟩ := List.mem_map.mp hrow2
  obtain ⟨jr, hjr, hjrk⟩ := List.mem_map.mp (List.mem_dedup.mp hk)
  have hjs : jr.station_id = sid := by
    have h1 : row.station_id = k.1 := by
      rw [← hkrow]
    have h2 : jr.station_id = k.1 := by
      rw [← hjrk]
    rw [h2, ← h1, hsid]
  obtain ⟨g, hg, hgdate, hgjr, ⟨st, hst, hsts⟩, kc, hkc, hkck⟩ :=
    mem_sampleJoin hjr
  obtain ⟨u, hu, hud⟩ := onTargetDate_eq_true hgdate
  obtain ⟨tr, htr, htrdate, htrsid⟩ := mem_dailyTripCounts hkc
  obtain ⟨v, hv, hvd⟩ := onTargetDate_eq_true htrdate
  refine ⟨⟨tr, htr, ?_, v, hv, hvd⟩, ⟨st, hst, ?_⟩, g, hg, ?_, u, hu, hud⟩
  · rw [htrsid, hkck, hgjr, hjs]
  · rw [hsts, hgjr, hjs]
  · rw [hgjr, hjs]

/-- C9 witness: station 7 of the fixture appears in the result and indeed
has all three kinds of matching rows. -/
theorem sample_query_requires_all_three_witness :
    ((7 : Int) ∈ (sample_query sampleFixture).map SampleRow.station_id) ∧
    ((∃ tr ∈ sampleFixture.trips, tr.start_station_id = some 7 ∧
        ∃ u, tr.start_date = some u ∧ castDate u = targetDate) ∧
      (∃ st ∈ sampleFixture.stations, st.station_id = 7) ∧
      (∃ g ∈ sampleFixture.gbfs, g.station_id = 7 ∧
        ∃ u, g.last_updated_dt = some u ∧ castDate u = targetDate)) :=
  ⟨by decide, sample_query_requires_all_three sampleFixture 7 (by decide)⟩

/-- C10: the copy statement is the fixed concatenation of its five inputs,
and the secret access key appears verbatim between single quotes in the
produced statement text. -/
theorem copy_table_query_secret_verbatim (t p k s f : String) :
    ∃ pre post : String,
      copy_table_query t p k s f = pre ++ (sq ++ s ++ sq) ++ post := by
  refine ⟨"\n    copy " ++ t ++ "\n    from " ++ quoted p
      ++ "\n    access_key_id " ++ quoted k ++ "\n    secret_access_key ",
    "\n    format as " ++ f ++ "\n", ?_⟩
  simp only [copy_table_query, quoted, String.append_assoc]

end SqlQueries


